import Mathlib

/-!
Shallow embedding of the appliance-status monitor state machine
(custom_components/appliance_status/coordinator.py together with the
constants from const.py).

Power values, cumulative energy values and timestamps are rational
numbers (timestamps are in seconds, with datetime subtraction giving
the difference in seconds, matching timedelta total_seconds).
Calendar dates (the strftime day strings) are modelled as natural
numbers compared for equality only.  The external collaborators
(scheduled callbacks, the sensor registry, storage) are modelled by
passing their observable results as explicit arguments: a timer firing
is a function taking the current time, an energy read takes the value
the energy sensor would report, and restore takes the stored snapshot.
Side effects that the code performs (observer callbacks, persistence
writes, the completion event on the bus) are returned as an explicit
Effects record.
-/

/-- Internal lifecycle states (const.py STATE_OFF .. STATE_COMPLETED). -/
inductive AState
  | off
  | standby
  | pending_running
  | running
  | pending_completed
  | completed
deriving DecidableEq, Repr

/-- The raw band computed from a power value in classify_power: the code
reuses the state constants off, standby and running for this role. -/
inductive Band
  | off
  | standby
  | running
deriving DecidableEq, Repr

/-- The mutable fields of one ApplianceMonitor instance, plus the
configuration that the state machine reads.  Timer handles are the
absolute fire deadline when armed and none when not armed. -/
structure Monitor where
  appliance_name : String
  energy_entity : Bool
  state : AState
  current_power : ℚ
  last_state_change : Option ℚ
  last_started : Option ℚ
  last_completed : Option ℚ
  cycle_duration : Option ℚ
  cycles_today : Nat
  cycles_today_date : Option Nat
  energy_at_start : Option ℚ
  cycle_energy : Option ℚ
  standby_threshold : ℚ
  running_threshold : ℚ
  start_delay : Nat
  finish_delay : Nat
  debounce_time : Nat
  start_timer : Option ℚ
  finish_timer : Option ℚ
  debounce_timer : Option ℚ
deriving DecidableEq, Repr

/-- A fresh monitor as built by the constructor: state off, counters at
zero, thresholds and delays at the defaults from const.py. -/
def initMonitor (name : String) (energy : Bool) : Monitor :=
  { appliance_name := name
    energy_entity := energy
    state := AState.off
    current_power := 0
    last_state_change := none
    last_started := none
    last_completed := none
    cycle_duration := none
    cycles_today := 0
    cycles_today_date := none
    energy_at_start := none
    cycle_energy := none
    standby_threshold := 2
    running_threshold := 8
    start_delay := 5
    finish_delay := 2
    debounce_time := 20
    start_timer := none
    finish_timer := none
    debounce_timer := none }

/-- One appliance_status_completed event fired on the bus. -/
structure CompletionEvent where
  entity_id : String
  appliance_name : String
  cycle_duration : Option ℚ
  cycle_energy : Option ℚ
deriving DecidableEq, Repr

/-- Observable side effects of one handler run: how many times
_notify_update ran, how many persistence writes were scheduled, and the
completion events fired. -/
structure Effects where
  notifyCount : Nat
  saves : Nat
  completions : List CompletionEvent
deriving DecidableEq, Repr

/-- No side effects. -/
def noEffects : Effects := ⟨0, 0, []⟩

/-- EXTERNAL_STATE_MAP together with the state property: the reported
state collapses the two pending states onto their visible neighbors. -/
def external_state (s : AState) : AState :=
  match s with
  | AState.off => AState.off
  | AState.standby => AState.standby
  | AState.pending_running => AState.standby
  | AState.running => AState.running
  | AState.pending_completed => AState.running
  | AState.completed => AState.completed

/-- The band computation at the top of classify_power. -/
def classifyBand (m : Monitor) (power : ℚ) : Band :=
  if power < m.standby_threshold then Band.off
  else if power < m.running_threshold then Band.standby
  else Band.running

/-- start_pending_running: enter pending_running, replace any armed
start timer by one firing start_delay minutes from now. -/
def start_pending_running (m : Monitor) (now : ℚ) : Monitor :=
  { m with state := AState.pending_running
           start_timer := some (now + 60 * (m.start_delay : ℚ)) }

/-- start_pending_completed: enter pending_completed, replace any armed
finish timer by one firing finish_delay minutes from now. -/
def start_pending_completed (m : Monitor) (now : ℚ) : Monitor :=
  { m with state := AState.pending_completed
           finish_timer := some (now + 60 * (m.finish_delay : ℚ)) }

/-- The transition method: dispatch on current state and raw band. -/
def transition (m : Monitor) (raw : Band) (now : ℚ) : Monitor :=
  match m.state, raw with
  | AState.off, Band.off => m
  | AState.off, Band.standby => { m with state := AState.standby }
  | AState.off, Band.running => start_pending_running m now
  | AState.standby, Band.off => { m with state := AState.off }
  | AState.standby, Band.standby => m
  | AState.standby, Band.running => start_pending_running m now
  | AState.pending_running, Band.off =>
      { m with state := AState.off, start_timer := none }
  | AState.pending_running, Band.standby =>
      { m with state := AState.standby, start_timer := none }
  | AState.pending_running, Band.running => m
  | AState.running, Band.off => start_pending_completed m now
  | AState.running, Band.standby => start_pending_completed m now
  | AState.running, Band.running => m
  | AState.pending_completed, Band.running =>
      { m with state := AState.running, finish_timer := none }
  | AState.pending_completed, Band.off => m
  | AState.pending_completed, Band.standby => m
  | AState.completed, Band.off => { m with state := AState.off }
  | AState.completed, Band.standby => { m with state := AState.standby }
  | AState.completed, Band.running => start_pending_running m now

/-- classify_power: compute the band, run the transition, and when the
state value changed stamp last_state_change, notify observers once and
schedule one persistence write. -/
def classify_power (m : Monitor) (power now : ℚ) : Monitor × Effects :=
  let m2 := transition m (classifyBand m power) now
  if m2.state ≠ m.state then
    ({ m2 with last_state_change := some now }, ⟨1, 1, []⟩)
  else
    (m2, noEffects)

/-- read_energy_value: none when no energy entity is configured,
otherwise whatever the sensor read yields (none again when the sensor
is missing, unavailable or unparseable). -/
def read_energy_value (m : Monitor) (reading : Option ℚ) : Option ℚ :=
  if m.energy_entity then reading else none

/-- start_timer_callback: clear the handle, and only when the state is
still pending_running confirm running, stamp last_started, snapshot the
energy baseline, notify and persist. -/
def start_timer_callback (m : Monitor) (now : ℚ) (energy : Option ℚ) :
    Monitor × Effects :=
  let m1 := { m with start_timer := none }
  if m1.state = AState.pending_running then
    ({ m1 with state := AState.running
               last_started := some now
               energy_at_start := read_energy_value m1 energy }, ⟨1, 1, []⟩)
  else
    (m1, noEffects)

/-- Python round to three decimals, modelled with the mathlib round
function on rationals. -/
def round3 (q : ℚ) : ℚ := ((round (q * 1000) : ℤ) : ℚ) / 1000

/-- make_slug: lower case, then spaces and dashes become underscores. -/
def make_slug (name : String) : String :=
  String.replace (String.replace (String.toLower name) " " "_") "-" "_"

/-- finish_timer_callback: clear the handle, and only when the state is
still pending_completed confirm completion, stamp last_completed,
derive duration and energy, clear the baseline, roll over and bump the
daily counter, fire the completion event, notify and persist. -/
def finish_timer_callback (m : Monitor) (now : ℚ) (today : Nat)
    (energy : Option ℚ) : Monitor × Effects :=
  let m1 := { m with finish_timer := none }
  if m1.state = AState.pending_completed then
    let m2 := { m1 with state := AState.completed, last_completed := some now }
    let m3 := match m2.last_started with
      | some s => { m2 with cycle_duration := some (now - s) }
      | none => m2
    let energyAtEnd := read_energy_value m3 energy
    let m4 := match m3.energy_at_start, energyAtEnd with
      | some b, some e => { m3 with cycle_energy := some (round3 (e - b)) }
      | _, _ => m3
    let m5 := { m4 with energy_at_start := none }
    let m6 := if m5.cycles_today_date ≠ some today then
        { m5 with cycles_today := 0, cycles_today_date := some today }
      else m5
    let m7 := { m6 with cycles_today := m6.cycles_today + 1 }
    let ev : CompletionEvent :=
      { entity_id := "sensor.appliance_" ++ make_slug m7.appliance_name ++ "_status"
        appliance_name := m7.appliance_name
        cycle_duration := m7.cycle_duration
        cycle_energy := m7.cycle_energy }
    (m7, ⟨1, 1, [ev]⟩)
  else
    (m1, noEffects)

/-- The value the power subscription hands to the handler. -/
inductive SensorReading
  | missing
  | unavailable
  | unknown
  | nonNumeric
  | value (v : ℚ)
deriving DecidableEq, Repr

/-- async_power_state_changed: discard missing, unavailable, unknown or
unparseable readings; otherwise store the power immediately and rearm
the debounce timer for debounce_time seconds from now. -/
def power_state_changed (m : Monitor) (r : SensorReading) (now : ℚ) : Monitor :=
  match r with
  | SensorReading.value v =>
      { m with current_power := v
               debounce_timer := some (now + (m.debounce_time : ℚ)) }
  | _ => m

/-- debounce_callback: clear the handle and classify whatever the
latest stored power value is. -/
def debounce_callback (m : Monitor) (now : ℚ) : Monitor × Effects :=
  classify_power { m with debounce_timer := none } m.current_power now

/-- The cycles_today property: lazily roll the counter over when read
on a day other than the stored one, returning the possibly reset count
together with the updated monitor. -/
def cycles_today_read (m : Monitor) (today : Nat) : Nat × Monitor :=
  if m.cycles_today_date ≠ some today then
    (0, { m with cycles_today := 0, cycles_today_date := some today })
  else
    (m.cycles_today, m)

/-- async_stop: cancel every timer. -/
def stop_monitoring (m : Monitor) : Monitor :=
  { m with start_timer := none, finish_timer := none, debounce_timer := none }

/-- A state string as found in a persisted snapshot: the six known
constants or anything else. -/
inductive StoredState
  | off
  | standby
  | pending_running
  | running
  | pending_completed
  | completed
  | unrecognized
deriving DecidableEq, Repr

/-- A raw timestamp entry of a snapshot, as seen by the restore code:
absent covers a missing key and any falsy value (the truthiness guard
skips the assignment), raises covers a value on which parse_datetime
raises (a non string), and parses carries the parse result, which is
none for a string that does not parse. -/
inductive RawTimestamp
  | absent
  | raises
  | parses (t : Option ℚ)
deriving DecidableEq, Repr

/-- One persisted snapshot, field for field as async_save_state writes
it and async_restore_state reads it.  Option models a missing key for
the fields read through get. -/
structure StoredData where
  state : Option StoredState
  last_started : RawTimestamp
  last_completed : RawTimestamp
  cycle_duration : Option ℚ
  cycles_today : Option Nat
  cycles_today_date : Option Nat
  cycle_energy : Option ℚ
  energy_at_start : Option ℚ
deriving DecidableEq, Repr

/-- The restore mapping applied to the stored state string. -/
def restore_state_map (s : StoredState) : AState :=
  match s with
  | StoredState.running => AState.running
  | StoredState.pending_running => AState.running
  | StoredState.pending_completed => AState.running
  | StoredState.completed => AState.completed
  | StoredState.standby => AState.standby
  | StoredState.off => AState.off
  | StoredState.unrecognized => AState.off

/-- Tail of the restore body after both timestamps were handled: the
remaining fields are read through get and assigned unconditionally. -/
def restore_plain_fields (m : Monitor) (d : StoredData) : Monitor :=
  { m with cycle_duration := d.cycle_duration
           cycles_today := d.cycles_today.getD 0
           cycles_today_date := d.cycles_today_date
           cycle_energy := d.cycle_energy
           energy_at_start := d.energy_at_start }

/-- Restore step for the stored last_completed value: a raising value
aborts the body, leaving every field assigned so far in place. -/
def restore_from_completed (m : Monitor) (d : StoredData) : Monitor :=
  match d.last_completed with
  | RawTimestamp.raises => m
  | RawTimestamp.absent => restore_plain_fields m d
  | RawTimestamp.parses t => restore_plain_fields { m with last_completed := t } d

/-- Restore step for the stored last_started value. -/
def restore_from_started (m : Monitor) (d : StoredData) : Monitor :=
  match d.last_started with
  | RawTimestamp.raises => m
  | RawTimestamp.absent => restore_from_completed m d
  | RawTimestamp.parses t => restore_from_completed { m with last_started := t } d

/-- async_restore_state: with no snapshot the monitor is untouched;
otherwise the state is mapped first, then the timestamps are parsed (a
raise is caught and leaves the partial assignment in place), then the
plain fields are copied. -/
def restore_state (m : Monitor) : Option StoredData → Monitor
  | none => m
  | some d =>
      restore_from_started
        { m with state := restore_state_map (d.state.getD StoredState.off) } d

/-- Event steps reachable in the life of one monitor: construction,
one restore before observation begins, the seed classification done by
async_start, accepted and discarded power updates, the three timer
callbacks, the parameter setters and shutdown. -/
inductive Reachable (name : String) (energy : Bool) : Monitor → Prop
  | init : Reachable name energy (initMonitor name energy)
  | restored (d : Option StoredData) :
      Reachable name energy (restore_state (initMonitor name energy) d)
  | seed (m : Monitor) (p t : ℚ) : Reachable name energy m →
      Reachable name energy (classify_power { m with current_power := p } p t).1
  | power (m : Monitor) (r : SensorReading) (t : ℚ) : Reachable name energy m →
      Reachable name energy (power_state_changed m r t)
  | debounce (m : Monitor) (t : ℚ) : Reachable name energy m →
      Reachable name energy (debounce_callback m t).1
  | startFire (m : Monitor) (t : ℚ) (e : Option ℚ) : Reachable name energy m →
      Reachable name energy (start_timer_callback m t e).1
  | finishFire (m : Monitor) (t : ℚ) (today : Nat) (e : Option ℚ) :
      Reachable name energy m →
      Reachable name energy (finish_timer_callback m t today e).1
  | setStandby (m : Monitor) (v : ℚ) : Reachable name energy m →
      Reachable name energy { m with standby_threshold := v }
  | setRunning (m : Monitor) (v : ℚ) : Reachable name energy m →
      Reachable name energy { m with running_threshold := v }
  | setStartDelay (m : Monitor) (v : Nat) : Reachable name energy m →
      Reachable name energy { m with start_delay := v }
  | setFinishDelay (m : Monitor) (v : Nat) : Reachable name energy m →
      Reachable name energy { m with finish_delay := v }
  | setDebounce (m : Monitor) (v : Nat) : Reachable name energy m →
      Reachable name energy { m with debounce_time := v }
  | stop (m : Monitor) : Reachable name energy m →
      Reachable name energy (stop_monitoring m)

/-- The timer discipline: a confirmation timer is armed only while the
matching pending state holds. -/
def TimerInv (m : Monitor) : Prop :=
  (m.start_timer ≠ none → m.state = AState.pending_running) ∧
  (m.finish_timer ≠ none → m.state = AState.pending_completed)

/-- Result of replaying a burst of accepted power updates: the final
monitor, the stored power after each update, and the time and power
value of every classifier run. -/
structure BurstResult where
  monitor : Monitor
  powerLog : List ℚ
  classLog : List (ℚ × ℚ)
deriving Repr

/-- Replay a time ordered list of accepted updates against the timer
semantics of the scheduler: before an update is delivered, an armed
debounce timer whose deadline has passed fires first; after the last
update, an armed debounce timer fires at its deadline. -/
def runBurst (m : Monitor) : List (ℚ × ℚ) → BurstResult
  | [] =>
      match m.debounce_timer with
      | some d =>
          { monitor := (debounce_callback m d).1
            powerLog := []
            classLog := [(d, m.current_power)] }
      | none => { monitor := m, powerLog := [], classLog := [] }
  | (t, v) :: rest =>
      match m.debounce_timer with
      | some d =>
          if d ≤ t then
            let m1 := power_state_changed (debounce_callback m d).1
              (SensorReading.value v) t
            let r := runBurst m1 rest
            { r with powerLog := m1.current_power :: r.powerLog
                     classLog := (d, m.current_power) :: r.classLog }
          else
            let m1 := power_state_changed m (SensorReading.value v) t
            let r := runBurst m1 rest
            { r with powerLog := m1.current_power :: r.powerLog }
      | none =>
          let m1 := power_state_changed m (SensorReading.value v) t
          let r := runBurst m1 rest
          { r with powerLog := m1.current_power :: r.powerLog }

/-- The fire time and classified value that a burst replay ends with,
folded along the updates: each update moves the deadline to its own
time plus the debounce interval and stores its value. -/
def lastFire (d cp dbt : ℚ) : List (ℚ × ℚ) → ℚ × ℚ
  | [] => (d, cp)
  | (t, v) :: rest => lastFire (t + dbt) v dbt rest

/-- The cycle duration after a confirmed completion at time now: end
minus start when a start timestamp exists, otherwise the stale value. -/
def newCycleDuration (m : Monitor) (now : ℚ) : Option ℚ :=
  match m.last_started with
  | some s => some (now - s)
  | none => m.cycle_duration

/-- The cycle energy after a confirmed completion: the rounded delta
when both a baseline and a current reading exist, otherwise the stale
value. -/
def newCycleEnergy (m : Monitor) (energy : Option ℚ) : Option ℚ :=
  match m.energy_at_start, read_energy_value m energy with
  | some b, some e => some (round3 (e - b))
  | some _, none => m.cycle_energy
  | none, _ => m.cycle_energy

/-- The daily counter after a confirmed completion: rolled over to zero
first when the stored date is not today, then incremented. -/
def rolledCount (m : Monitor) (today : Nat) : Nat :=
  (if m.cycles_today_date = some today then m.cycles_today else 0) + 1

/-- The transition table exactly as the spec draws it, used to compare
the code transition against the spec row by row. -/
def specTransitionTable (s : AState) (b : Band) : AState :=
  match s, b with
  | AState.off, Band.off => AState.off
  | AState.off, Band.standby => AState.standby
  | AState.off, Band.running => AState.pending_running
  | AState.standby, Band.off => AState.off
  | AState.standby, Band.standby => AState.standby
  | AState.standby, Band.running => AState.pending_running
  | AState.pending_running, Band.off => AState.off
  | AState.pending_running, Band.standby => AState.standby
  | AState.pending_running, Band.running => AState.pending_running
  | AState.running, Band.off => AState.pending_completed
  | AState.running, Band.standby => AState.pending_completed
  | AState.running, Band.running => AState.running
  | AState.pending_completed, Band.off => AState.pending_completed
  | AState.pending_completed, Band.standby => AState.pending_completed
  | AState.pending_completed, Band.running => AState.running
  | AState.completed, Band.off => AState.off
  | AState.completed, Band.standby => AState.standby
  | AState.completed, Band.running => AState.pending_running

/-- A concrete appliance name for witnesses. -/
def sample_name : String := "My Washer-1"

/-- A freshly constructed monitor with no energy source. -/
def sample_monitor : Monitor := initMonitor sample_name false

/-- A monitor waiting for the start confirmation. -/
def sample_pending_running : Monitor :=
  { sample_monitor with state := AState.pending_running }

/-- A monitor with an energy source, mid cycle and waiting for the
finish confirmation. -/
def sample_pending_completed : Monitor :=
  { initMonitor sample_name true with
      state := AState.pending_completed
      last_started := some 100
      energy_at_start := some 1
      cycles_today := 3
      cycles_today_date := some 6 }

/-- A burst of three accepted power updates five and ten seconds apart,
well inside the default twenty second debounce interval. -/
def burst_updates : List (ℚ × ℚ) := [(0, 10), (5, 3), (15, 50)]

/-- A snapshot whose fields are all present and parseable. -/
def sample_snapshot : StoredData :=
  { state := some StoredState.pending_completed
    last_started := RawTimestamp.parses (some 100)
    last_completed := RawTimestamp.parses (some 200)
    cycle_duration := some 300
    cycles_today := some 2
    cycles_today_date := some 5
    cycle_energy := some 1
    energy_at_start := some 4 }

/-- A snapshot whose stored state is running but whose last_started
entry is a value on which datetime parsing raises, aborting the restore
body partway through. -/
def corrupt_snapshot : StoredData :=
  { state := some StoredState.running
    last_started := RawTimestamp.raises
    last_completed := RawTimestamp.absent
    cycle_duration := none
    cycles_today := some 4
    cycles_today_date := none
    cycle_energy := none
    energy_at_start := none }

/-- A reachable monitor with the start confirmation timer armed: a
fresh monitor that received a high power update and whose debounce
timer then fired. -/
def sample_armed : Monitor :=
  (debounce_callback
    (power_state_changed (initMonitor sample_name false)
      (SensorReading.value 100) 0) 20).1

lemma transition_self_of_state_eq (m : Monitor) (b : Band) (now : ℚ)
    (h : (transition m b now).state = m.state) : transition m b now = m := by
  cases hs : m.state <;> cases b <;>
    simp_all [transition, start_pending_running, start_pending_completed]

lemma transition_state_eq_table (m : Monitor) (b : Band) (now : ℚ) :
    (transition m b now).state = specTransitionTable m.state b := by
  cases hs : m.state <;> cases b <;>
    simp_all [transition, specTransitionTable, start_pending_running,
      start_pending_completed]

lemma start_confirm_eq (m : Monitor) (t : ℚ) (e : Option ℚ)
    (h : m.state = AState.pending_running) :
    start_timer_callback m t e =
      ({ m with start_timer := none
                state := AState.running
                last_started := some t
                energy_at_start := read_energy_value m e }, ⟨1, 1, []⟩) := by
  simp [start_timer_callback, h, read_energy_value]

lemma start_stale_eq (m : Monitor) (t : ℚ) (e : Option ℚ)
    (h : m.state ≠ AState.pending_running) :
    start_timer_callback m t e = ({ m with start_timer := none }, noEffects) := by
  simp [start_timer_callback, h, noEffects]

lemma finish_stale_eq (m : Monitor) (t : ℚ) (today : Nat) (e : Option ℚ)
    (h : m.state ≠ AState.pending_completed) :
    finish_timer_callback m t today e =
      ({ m with finish_timer := none }, noEffects) := by
  simp [finish_timer_callback, h, noEffects]

lemma finish_confirm_eq (m : Monitor) (now : ℚ) (today : Nat) (e : Option ℚ)
    (h : m.state = AState.pending_completed) :
    finish_timer_callback m now today e =
      ({ m with finish_timer := none
                state := AState.completed
                last_completed := some now
                cycle_duration := newCycleDuration m now
                cycle_energy := newCycleEnergy m e
                energy_at_start := none
                cycles_today := rolledCount m today
                cycles_today_date := some today },
       ⟨1, 1,
        [{ entity_id := "sensor.appliance_" ++ make_slug m.appliance_name ++ "_status"
           appliance_name := m.appliance_name
           cycle_duration := newCycleDuration m now
           cycle_energy := newCycleEnergy m e }]⟩) := by
  obtain ⟨nm, en, st, cp, lsc, ls, lc, cd, ct, ctd, es, ce, sth, rth, sd, fd,
    dbt, stt, ft, dbtm⟩ := m
  change st = AState.pending_completed at h
  subst h
  cases ls <;> cases es <;> cases en <;> cases e <;>
    by_cases hd : ctd = some today <;>
      simp [finish_timer_callback, newCycleDuration, newCycleEnergy, rolledCount,
        read_energy_value, hd]

lemma timerInv_transition (m : Monitor) (b : Band) (now : ℚ)
    (h : TimerInv m) : TimerInv (transition m b now) := by
  obtain ⟨h1, h2⟩ := h
  cases hs : m.state <;> cases b <;>
    simp_all [transition, start_pending_running, start_pending_completed, TimerInv]

lemma timerInv_classify (m : Monitor) (p now : ℚ) (h : TimerInv m) :
    TimerInv (classify_power m p now).1 := by
  have ht := timerInv_transition m (classifyBand m p) now h
  unfold classify_power
  dsimp only
  by_cases hc : (transition m (classifyBand m p) now).state ≠ m.state
  · rw [if_pos hc]
    exact ⟨ht.1, ht.2⟩
  · rw [if_neg hc]
    exact ht

lemma timerInv_power (m : Monitor) (r : SensorReading) (t : ℚ)
    (h : TimerInv m) : TimerInv (power_state_changed m r t) := by
  cases r <;> exact ⟨h.1, h.2⟩

lemma timerInv_debounce (m : Monitor) (t : ℚ) (h : TimerInv m) :
    TimerInv (debounce_callback m t).1 :=
  timerInv_classify { m with debounce_timer := none } m.current_power t ⟨h.1, h.2⟩

lemma timerInv_startFire (m : Monitor) (t : ℚ) (e : Option ℚ)
    (h : TimerInv m) : TimerInv (start_timer_callback m t e).1 := by
  by_cases hs : m.state = AState.pending_running
  · rw [start_confirm_eq m t e hs]
    refine ⟨by simp, fun hf => ?_⟩
    have hc := h.2 hf
    rw [hs] at hc
    exact absurd hc (by decide)
  · rw [start_stale_eq m t e hs]
    constructor
    · intro hst
      exact absurd rfl hst
    · intro hf
      exact h.2 hf

lemma timerInv_finishFire (m : Monitor) (t : ℚ) (today : Nat) (e : Option ℚ)
    (h : TimerInv m) : TimerInv (finish_timer_callback m t today e).1 := by
  by_cases hs : m.state = AState.pending_completed
  · rw [finish_confirm_eq m t today e hs]
    refine ⟨fun hst => ?_, by simp⟩
    have hc := h.1 hst
    rw [hs] at hc
    exact absurd hc (by decide)
  · rw [finish_stale_eq m t today e hs]
    constructor
    · intro hst
      exact h.1 hst
    · intro hf
      exact absurd rfl hf

lemma restore_timers (m : Monitor) (d : Option StoredData) :
    (restore_state m d).start_timer = m.start_timer ∧
    (restore_state m d).finish_timer = m.finish_timer := by
  cases d with
  | none => exact ⟨rfl, rfl⟩
  | some d =>
      cases hls : d.last_started <;> cases hlc : d.last_completed <;>
        simp [restore_state, restore_from_started, restore_from_completed,
          restore_plain_fields, hls, hlc]

lemma reachable_timerInv (name : String) (energy : Bool) (m : Monitor)
    (h : Reachable name energy m) : TimerInv m := by
  induction h with
  | init =>
      exact ⟨fun hx => absurd rfl hx, fun hx => absurd rfl hx⟩
  | restored d =>
      have ht := restore_timers (initMonitor name energy) d
      constructor
      · intro hx
        rw [ht.1] at hx
        exact absurd rfl hx
      · intro hx
        rw [ht.2] at hx
        exact absurd rfl hx
  | seed m p t _ ih =>
      exact timerInv_classify { m with current_power := p } p t ⟨ih.1, ih.2⟩
  | power m r t _ ih => exact timerInv_power m r t ih
  | debounce m t _ ih => exact timerInv_debounce m t ih
  | startFire m t e _ ih => exact timerInv_startFire m t e ih
  | finishFire m t today e _ ih => exact timerInv_finishFire m t today e ih
  | setStandby m v _ ih => exact ⟨ih.1, ih.2⟩
  | setRunning m v _ ih => exact ⟨ih.1, ih.2⟩
  | setStartDelay m v _ ih => exact ⟨ih.1, ih.2⟩
  | setFinishDelay m v _ ih => exact ⟨ih.1, ih.2⟩
  | setDebounce m v _ ih => exact ⟨ih.1, ih.2⟩
  | stop m _ ih =>
      exact ⟨fun hx => absurd rfl hx, fun hx => absurd rfl hx⟩

lemma timerInv_not_both (m : Monitor) (h : TimerInv m) :
    ¬(m.start_timer ≠ none ∧ m.finish_timer ≠ none) := by
  rintro ⟨ha, hb⟩
  have h1 := h.1 ha
  have h2 := h.2 hb
  rw [h1] at h2
  exact absurd h2 (by decide)

lemma runBurst_armed (updates : List (ℚ × ℚ)) :
    ∀ (m : Monitor) (d : ℚ), m.debounce_timer = some d →
    (match updates with | [] => True | u :: _ => u.1 < d) →
    List.Chain' (fun a b => a.1 ≤ b.1 ∧ b.1 < a.1 + (m.debounce_time : ℚ)) updates →
    (runBurst m updates).powerLog = updates.map Prod.snd ∧
    (runBurst m updates).classLog =
      [lastFire d m.current_power (m.debounce_time : ℚ) updates] := by
  induction updates with
  | nil =>
      intro m d hd _ _
      simp [runBurst, hd, lastFire]
  | cons u rest ih =>
      intro m d hd hhead hchain
      obtain ⟨t, v⟩ := u
      have hnle : ¬ d ≤ t := not_le.mpr hhead
      have hstep : runBurst m ((t, v) :: rest) =
          { runBurst (power_state_changed m (SensorReading.value v) t) rest with
            powerLog :=
              (power_state_changed m (SensorReading.value v) t).current_power ::
                (runBurst (power_state_changed m (SensorReading.value v) t)
                  rest).powerLog } := by
        simp [runBurst, hd, hnle]
      have hm1 : (power_state_changed m (SensorReading.value v) t).debounce_timer =
          some (t + (m.debounce_time : ℚ)) := rfl
      have hheadr : (match rest with
          | [] => True
          | u :: _ => u.1 < t + (m.debounce_time : ℚ)) := by
        cases rest with
        | nil => trivial
        | cons u2 rest2 =>
            exact (List.chain'_cons.mp hchain).1.2
      have hchainr : List.Chain' (fun a b => a.1 ≤ b.1 ∧
          b.1 < a.1 + ((power_state_changed m (SensorReading.value v)
            t).debounce_time : ℚ)) rest := hchain.tail
      have hr := ih (power_state_changed m (SensorReading.value v) t)
        (t + (m.debounce_time : ℚ)) hm1 hheadr hchainr
      rw [hstep]
      constructor
      · simp only [List.map]
        rw [hr.1]
        rfl
      · rw [hr.2]
        rfl

lemma lastFire_getLast (dbt : ℚ) (updates : List (ℚ × ℚ)) :
    ∀ (hne : updates ≠ []) (d cp : ℚ),
    lastFire d cp dbt updates =
      ((updates.getLast hne).1 + dbt, (updates.getLast hne).2) := by
  induction updates with
  | nil =>
      intro hne
      exact absurd rfl hne
  | cons u rest ih =>
      intro _ d cp
      obtain ⟨t, v⟩ := u
      cases rest with
      | nil => simp [lastFire, List.getLast]
      | cons u2 rest2 =>
          rw [lastFire, ih (by simp) (t + dbt) v]
          have hg : ((t, v) :: u2 :: rest2).getLast (by simp) =
              (u2 :: rest2).getLast (by simp) := List.getLast_cons (by simp)
          rw [hg]

/-- C1: for every power value and internal state, classification maps
the value to the spec band (off below the standby threshold, standby
between the thresholds, running at or above the running threshold, the
thresholds being sanely ordered), the resulting transition changes the
state exactly as the spec transition table prescribes, and from
pending_running a band of off or standby cancels the start timer and
moves to off or standby respectively while a band of running leaves
monitor and timer untouched. -/
theorem classifier_and_transition_table (m : Monitor) (p now : ℚ)
    (hth : m.standby_threshold ≤ m.running_threshold) :
    (classifyBand m p = Band.off ↔ p < m.standby_threshold) ∧
    (classifyBand m p = Band.standby ↔
      m.standby_threshold ≤ p ∧ p < m.running_threshold) ∧
    (classifyBand m p = Band.running ↔ m.running_threshold ≤ p) ∧
    (transition m (classifyBand m p) now).state =
      specTransitionTable m.state (classifyBand m p) ∧
    (m.state = AState.pending_running →
      transition m Band.off now =
        { m with state := AState.off, start_timer := none } ∧
      transition m Band.standby now =
        { m with state := AState.standby, start_timer := none } ∧
      transition m Band.running now = m) := by
  refine ⟨?_, ?_, ?_, transition_state_eq_table m (classifyBand m p) now, ?_⟩
  · unfold classifyBand
    by_cases h1 : p < m.standby_threshold
    · simp [h1]
    · by_cases h2 : p < m.running_threshold <;> simp [h1, h2]
  · unfold classifyBand
    by_cases h1 : p < m.standby_threshold
    · simp [h1, not_le.mpr h1]
    · by_cases h2 : p < m.running_threshold
      · simp [h1, h2, not_lt.mp h1]
      · simp [h1, h2]
  · unfold classifyBand
    by_cases h1 : p < m.standby_threshold
    · simp [h1, not_le.mpr (lt_of_lt_of_le h1 hth)]
    · by_cases h2 : p < m.running_threshold
      · simp [h1, h2, not_le.mpr h2]
      · simp [h1, h2, not_lt.mp h2]
  · intro hpr
    refine ⟨?_, ?_, ?_⟩ <;> simp [transition, hpr]

/-- Witness for C1 at a fresh monitor reading 10 W. -/
theorem classifier_and_transition_table_witness :
    sample_monitor.standby_threshold ≤ sample_monitor.running_threshold ∧
    ((classifyBand sample_monitor 10 = Band.off ↔
        (10 : ℚ) < sample_monitor.standby_threshold) ∧
     (classifyBand sample_monitor 10 = Band.standby ↔
        sample_monitor.standby_threshold ≤ 10 ∧
          (10 : ℚ) < sample_monitor.running_threshold) ∧
     (classifyBand sample_monitor 10 = Band.running ↔
        sample_monitor.running_threshold ≤ 10) ∧
     (transition sample_monitor (classifyBand sample_monitor 10) 0).state =
       specTransitionTable sample_monitor.state (classifyBand sample_monitor 10) ∧
     (sample_monitor.state = AState.pending_running →
       transition sample_monitor Band.off 0 =
         { sample_monitor with state := AState.off, start_timer := none } ∧
       transition sample_monitor Band.standby 0 =
         { sample_monitor with state := AState.standby, start_timer := none } ∧
       transition sample_monitor Band.running 0 = sample_monitor)) :=
  ⟨by decide, classifier_and_transition_table sample_monitor 10 0 (by decide)⟩

/-- C3: a timer expiry acts only when the state still equals the
expected pending state; the start expiry then confirms running, stamps
the start timestamp and snapshots the energy baseline exactly when an
energy source is configured, while a stale expiry of either timer is a
silent no-op that only clears the timer handle. -/
theorem timer_callbacks_stale_guard (m : Monitor) (t : ℚ) (today : Nat)
    (e : Option ℚ) :
    (m.state = AState.pending_running →
      start_timer_callback m t e =
        ({ m with start_timer := none
                  state := AState.running
                  last_started := some t
                  energy_at_start := read_energy_value m e }, ⟨1, 1, []⟩)) ∧
    (m.state ≠ AState.pending_running →
      start_timer_callback m t e = ({ m with start_timer := none }, noEffects)) ∧
    (m.state ≠ AState.pending_completed →
      finish_timer_callback m t today e =
        ({ m with finish_timer := none }, noEffects)) ∧
    (m.energy_entity = true → read_energy_value m e = e) ∧
    (m.energy_entity = false → read_energy_value m e = none) := by
  refine ⟨start_confirm_eq m t e, start_stale_eq m t e,
    finish_stale_eq m t today e, ?_, ?_⟩
  · intro hcfg
    simp [read_energy_value, hcfg]
  · intro hcfg
    simp [read_energy_value, hcfg]

/-- Witness for C3: a stale start expiry on a completed monitor only
clears the handle. -/
theorem timer_callbacks_stale_guard_witness :
    (({ sample_monitor with state := AState.completed } : Monitor).state ≠
      AState.pending_running) ∧
    start_timer_callback { sample_monitor with state := AState.completed } 5 none =
      ({ { sample_monitor with state := AState.completed } with
          start_timer := none }, noEffects) :=
  ⟨by decide,
   (timer_callbacks_stale_guard { sample_monitor with state := AState.completed }
     5 0 none).2.1 (by decide)⟩

/-- C2: a finish expiry in pending_completed confirms completion,
stamps the cycle end, derives duration from the start timestamp when
one exists, derives the rounded energy delta when a baseline and a
current reading exist, always clears the baseline, rolls over and
increments the daily counter, and emits exactly one completion event
carrying the appliance name, the duration and the energy delta,
together with one observer notification and one persistence write. -/
theorem finish_timer_confirms_completion (m : Monitor) (now : ℚ) (today : Nat)
    (energy : Option ℚ) (h : m.state = AState.pending_completed) :
    (finish_timer_callback m now today energy).1.state = AState.completed ∧
    (finish_timer_callback m now today energy).1.last_completed = some now ∧
    (finish_timer_callback m now today energy).1.cycle_duration =
      (match m.last_started with
       | some s => some (now - s)
       | none => m.cycle_duration) ∧
    (finish_timer_callback m now today energy).1.cycle_energy =
      (match m.energy_at_start, read_energy_value m energy with
       | some b, some e => some (round3 (e - b))
       | some _, none => m.cycle_energy
       | none, _ => m.cycle_energy) ∧
    (finish_timer_callback m now today energy).1.energy_at_start = none ∧
    (finish_timer_callback m now today energy).1.cycles_today =
      (if m.cycles_today_date = some today then m.cycles_today else 0) + 1 ∧
    (finish_timer_callback m now today energy).1.cycles_today_date = some today ∧
    (finish_timer_callback m now today energy).2 =
      ⟨1, 1,
       [{ entity_id := "sensor.appliance_" ++ make_slug m.appliance_name ++ "_status"
          appliance_name := m.appliance_name
          cycle_duration := (finish_timer_callback m now today energy).1.cycle_duration
          cycle_energy := (finish_timer_callback m now today energy).1.cycle_energy }]⟩ := by
  rw [finish_confirm_eq m now today energy h]
  exact ⟨rfl, rfl, rfl, rfl, rfl, rfl, rfl, rfl⟩

/-- Witness for C2 at a mid cycle monitor completing at time 400 on a
new day with a live energy reading. -/
theorem finish_timer_confirms_completion_witness :
    sample_pending_completed.state = AState.pending_completed ∧
    ((finish_timer_callback sample_pending_completed 400 7 (some 4)).1.state =
        AState.completed ∧
     (finish_timer_callback sample_pending_completed 400 7 (some 4)).1.last_completed =
        some 400 ∧
     (finish_timer_callback sample_pending_completed 400 7 (some 4)).1.cycle_duration =
       (match sample_pending_completed.last_started with
        | some s => some (400 - s)
        | none => sample_pending_completed.cycle_duration) ∧
     (finish_timer_callback sample_pending_completed 400 7 (some 4)).1.cycle_energy =
       (match sample_pending_completed.energy_at_start,
           read_energy_value sample_pending_completed (some 4) with
        | some b, some e => some (round3 (e - b))
        | some _, none => sample_pending_completed.cycle_energy
        | none, _ => sample_pending_completed.cycle_energy) ∧
     (finish_timer_callback sample_pending_completed 400 7 (some 4)).1.energy_at_start =
        none ∧
     (finish_timer_callback sample_pending_completed 400 7 (some 4)).1.cycles_today =
       (if sample_pending_completed.cycles_today_date = some 7 then
          sample_pending_completed.cycles_today
        else 0) + 1 ∧
     (finish_timer_callback sample_pending_completed 400 7 (some 4)).1.cycles_today_date =
        some 7 ∧
     (finish_timer_callback sample_pending_completed 400 7 (some 4)).2 =
       ⟨1, 1,
        [{ entity_id :=
             "sensor.appliance_" ++ make_slug sample_pending_completed.appliance_name ++
               "_status"
           appliance_name := sample_pending_completed.appliance_name
           cycle_duration :=
             (finish_timer_callback sample_pending_completed 400 7 (some 4)).1.cycle_duration
           cycle_energy :=
             (finish_timer_callback sample_pending_completed 400 7 (some 4)).1.cycle_energy }]⟩) :=
  ⟨rfl, finish_timer_confirms_completion sample_pending_completed 400 7 (some 4) rfl⟩

/-- C4 counterexample: the start expiry changes the state from
pending_running to running but leaves the last change timestamp at its
prior value instead of stamping the fire time, refuting the claim that
every state changing transition updates the last change timestamp. -/
theorem timer_transition_skips_last_change :
    (start_timer_callback sample_pending_running 5 none).1.state ≠
      sample_pending_running.state ∧
    sample_pending_running.last_state_change = none ∧
    (start_timer_callback sample_pending_running 5 none).1.last_state_change =
      none := by
  decide

/-- C4 amended: a classification that changes the state stamps the last
change timestamp and produces exactly one observer notification and one
persistence write; a classification that leaves the state unchanged
changes nothing and produces no effects; a timer expiry that changes
the state produces exactly one notification and one write but leaves
the last change timestamp untouched. -/
theorem state_change_effect_discipline (m : Monitor) (p now t : ℚ)
    (today : Nat) (e : Option ℚ) :
    ((classify_power m p now).1.state ≠ m.state →
      (classify_power m p now).1.last_state_change = some now ∧
      (classify_power m p now).2 = ⟨1, 1, []⟩) ∧
    ((classify_power m p now).1.state = m.state →
      classify_power m p now = (m, noEffects)) ∧
    (m.state = AState.pending_running →
      (start_timer_callback m t e).1.state ≠ m.state ∧
      (start_timer_callback m t e).1.last_state_change = m.last_state_change ∧
      (start_timer_callback m t e).2 = ⟨1, 1, []⟩) ∧
    (m.state = AState.pending_completed →
      (finish_timer_callback m t today e).1.state ≠ m.state ∧
      (finish_timer_callback m t today e).1.last_state_change =
        m.last_state_change ∧
      (finish_timer_callback m t today e).2.notifyCount = 1 ∧
      (finish_timer_callback m t today e).2.saves = 1) := by
  refine ⟨?_, ?_, ?_, ?_⟩
  · intro hchg
    unfold classify_power at hchg ⊢
    dsimp only at hchg ⊢
    by_cases hc : (transition m (classifyBand m p) now).state ≠ m.state
    · rw [if_pos hc]
      exact ⟨rfl, rfl⟩
    · rw [if_neg hc] at hchg
      exact absurd hchg hc
  · intro heq
    unfold classify_power at heq ⊢
    dsimp only at heq ⊢
    by_cases hc : (transition m (classifyBand m p) now).state ≠ m.state
    · rw [if_pos hc] at heq
      exact absurd heq hc
    · rw [if_neg hc]
      rw [transition_self_of_state_eq m (classifyBand m p) now (not_ne_iff.mp hc)]
  · intro hs
    rw [start_confirm_eq m t e hs]
    refine ⟨?_, rfl, rfl⟩
    rw [hs]
    simp
  · intro hs
    rw [finish_confirm_eq m t today e hs]
    refine ⟨?_, rfl, rfl, rfl⟩
    rw [hs]
    simp

/-- Witness for C4 amended: the start expiry on a pending_running
monitor changes the state, keeps the last change timestamp and yields
one notification and one write. -/
theorem state_change_effect_discipline_witness :
    sample_pending_running.state = AState.pending_running ∧
    ((start_timer_callback sample_pending_running 5 none).1.state ≠
        sample_pending_running.state ∧
     (start_timer_callback sample_pending_running 5 none).1.last_state_change =
        sample_pending_running.last_state_change ∧
     (start_timer_callback sample_pending_running 5 none).2 = ⟨1, 1, []⟩) :=
  ⟨rfl,
   (state_change_effect_discipline sample_pending_running 0 0 5 0 none).2.2.1 rfl⟩

/-- C5: a nonempty burst of accepted updates, each arriving within the
debounce interval of the previous one and starting with no debounce
timer armed, overwrites the stored power at every update (the power log
equals the update values) yet runs the classifier exactly once, when
the debounce timer finally fires one interval after the last update,
and on the value of the last update in the burst. -/
theorem debounce_burst_single_classification (m : Monitor)
    (updates : List (ℚ × ℚ)) (hne : updates ≠ [])
    (h0 : m.debounce_timer = none)
    (hchain : List.Chain' (fun a b => a.1 ≤ b.1 ∧
      b.1 < a.1 + (m.debounce_time : ℚ)) updates) :
    (runBurst m updates).powerLog = updates.map Prod.snd ∧
    (runBurst m updates).classLog =
      [((updates.getLast hne).1 + (m.debounce_time : ℚ),
        (updates.getLast hne).2)] := by
  cases updates with
  | nil => exact absurd rfl hne
  | cons u rest =>
      obtain ⟨t, v⟩ := u
      have hstep : runBurst m ((t, v) :: rest) =
          { runBurst (power_state_changed m (SensorReading.value v) t) rest with
            powerLog :=
              (power_state_changed m (SensorReading.value v) t).current_power ::
                (runBurst (power_state_changed m (SensorReading.value v) t)
                  rest).powerLog } := by
        simp [runBurst, h0]
      have hm1 : (power_state_changed m (SensorReading.value v) t).debounce_timer =
          some (t + (m.debounce_time : ℚ)) := rfl
      have hheadr : (match rest with
          | [] => True
          | u :: _ => u.1 < t + (m.debounce_time : ℚ)) := by
        cases rest with
        | nil => trivial
        | cons u2 rest2 => exact (List.chain'_cons.mp hchain).1.2
      have hr := runBurst_armed rest
        (power_state_changed m (SensorReading.value v) t)
        (t + (m.debounce_time : ℚ)) hm1 hheadr hchain.tail
      rw [hstep]
      constructor
      · simp only [List.map]
        rw [hr.1]
        rfl
      · rw [hr.2]
        have hlf : lastFire (t + (m.debounce_time : ℚ))
            (power_state_changed m (SensorReading.value v) t).current_power
            ((power_state_changed m (SensorReading.value v) t).debounce_time : ℚ)
            rest =
            lastFire 0 0 (m.debounce_time : ℚ) ((t, v) :: rest) := rfl
        rw [hlf, lastFire_getLast (m.debounce_time : ℚ) ((t, v) :: rest) hne 0 0]

/-- Witness for C5: three updates at times 0, 5 and 15 on a fresh
monitor with a twenty second debounce produce power log 10, 3, 50 and a
single classification at time 35 on value 50. -/
theorem debounce_burst_single_classification_witness :
    burst_updates ≠ ([] : List (ℚ × ℚ)) ∧
    sample_monitor.debounce_timer = none ∧
    List.Chain' (fun a b => a.1 ≤ b.1 ∧
      b.1 < a.1 + (sample_monitor.debounce_time : ℚ)) burst_updates ∧
    (runBurst sample_monitor burst_updates).powerLog =
      burst_updates.map Prod.snd ∧
    (runBurst sample_monitor burst_updates).classLog =
      [((burst_updates.getLast (by decide)).1 + (sample_monitor.debounce_time : ℚ),
        (burst_updates.getLast (by decide)).2)] :=
  ⟨by decide, rfl,
   by norm_num [burst_updates, List.chain'_cons, List.chain'_singleton, sample_monitor, initMonitor],
   (debounce_burst_single_classification sample_monitor burst_updates
     (by decide) rfl
     (by norm_num [burst_updates, List.chain'_cons, List.chain'_singleton, sample_monitor, initMonitor])).1,
   (debounce_burst_single_classification sample_monitor burst_updates
     (by decide) rfl
     (by norm_num [burst_updates, List.chain'_cons, List.chain'_singleton, sample_monitor, initMonitor])).2⟩

/-- C6: restoring with no snapshot leaves the fresh monitor at off with
all derived fields at defaults; restoring a readable snapshot maps
stored running, pending_running and pending_completed to running, maps
completed, standby and off to themselves, maps anything unrecognized to
off, and copies every other snapshot field verbatim. -/
theorem restore_policy_on_startup (name : String) (energy : Bool)
    (d : StoredData)
    (hs : d.last_started ≠ RawTimestamp.raises)
    (hc : d.last_completed ≠ RawTimestamp.raises) :
    (restore_state (initMonitor name energy) (some d)).state =
      (if d.state.getD StoredState.off = StoredState.running ∨
          d.state.getD StoredState.off = StoredState.pending_running ∨
          d.state.getD StoredState.off = StoredState.pending_completed then
        AState.running
       else if d.state.getD StoredState.off = StoredState.completed then
        AState.completed
       else if d.state.getD StoredState.off = StoredState.standby then
        AState.standby
       else AState.off) ∧
    (restore_state (initMonitor name energy) (some d)).last_started =
      (match d.last_started with
       | RawTimestamp.parses t => t
       | _ => none) ∧
    (restore_state (initMonitor name energy) (some d)).last_completed =
      (match d.last_completed with
       | RawTimestamp.parses t => t
       | _ => none) ∧
    (restore_state (initMonitor name energy) (some d)).cycle_duration =
      d.cycle_duration ∧
    (restore_state (initMonitor name energy) (some d)).cycles_today =
      d.cycles_today.getD 0 ∧
    (restore_state (initMonitor name energy) (some d)).cycles_today_date =
      d.cycles_today_date ∧
    (restore_state (initMonitor name energy) (some d)).cycle_energy =
      d.cycle_energy ∧
    (restore_state (initMonitor name energy) (some d)).energy_at_start =
      d.energy_at_start ∧
    restore_state (initMonitor name energy) none = initMonitor name energy ∧
    (initMonitor name energy).state = AState.off ∧
    (initMonitor name energy).last_started = none ∧
    (initMonitor name energy).cycle_duration = none ∧
    (initMonitor name energy).cycles_today = 0 := by
  rcases d with ⟨dst, dls, dlc, dcd, dct, dctd, dce, des⟩
  rcases dst with _ | st
  · cases dls <;> cases dlc <;>
      first
      | exact absurd rfl hs
      | exact absurd rfl hc
      | simp [restore_state, restore_from_started, restore_from_completed,
          restore_plain_fields, restore_state_map, initMonitor]
  · cases st <;> cases dls <;> cases dlc <;>
      first
      | exact absurd rfl hs
      | exact absurd rfl hc
      | simp [restore_state, restore_from_started, restore_from_completed,
          restore_plain_fields, restore_state_map, initMonitor]

/-- Witness for C6 at a fully populated snapshot stored in state
pending_completed, which restores as running with every field copied. -/
theorem restore_policy_on_startup_witness :
    sample_snapshot.last_started ≠ RawTimestamp.raises ∧
    sample_snapshot.last_completed ≠ RawTimestamp.raises ∧
    (restore_state (initMonitor sample_name true) (some sample_snapshot)).state =
      AState.running ∧
    (restore_state (initMonitor sample_name true) (some sample_snapshot)).last_started =
      some 100 ∧
    (restore_state (initMonitor sample_name true) (some sample_snapshot)).cycles_today =
      2 ∧
    (restore_state (initMonitor sample_name true) (some sample_snapshot)).energy_at_start =
      some 4 := by
  refine ⟨by decide, by decide, ?_, ?_, ?_, ?_⟩ <;>
    have h := restore_policy_on_startup sample_name true sample_snapshot
      (by decide) (by decide)
  · exact h.1
  · exact h.2.1
  · exact h.2.2.2.2.1
  · exact h.2.2.2.2.2.2.2.1

/-- C7: at the failing snapshot (stored state running together with a
last_started entry on which datetime parsing raises) the restore body
aborts after the state assignment: the monitor is left in running, not
off, and the stored daily count was never applied, so a failed restore
does not behave as if no snapshot had existed. -/
theorem restore_failure_keeps_partial_state :
    (restore_state (initMonitor sample_name false) (some corrupt_snapshot)).state =
      AState.running ∧
    (restore_state (initMonitor sample_name false)
      (some corrupt_snapshot)).cycles_today = 0 ∧
    corrupt_snapshot.cycles_today = some 4 ∧
    AState.running ≠ AState.off := by
  decide

/-- C8: reading the daily counter on a day other than the stored date
returns zero and restamps the date without requiring a completed cycle;
reading it on the stored date returns the count and changes nothing;
a completion on a new day resets to zero before incrementing, yielding
one. -/
theorem cycles_today_lazy_rollover (m : Monitor) (today : Nat) (now : ℚ)
    (e : Option ℚ) :
    (m.cycles_today_date ≠ some today →
      (cycles_today_read m today).1 = 0 ∧
      (cycles_today_read m today).2.cycles_today = 0 ∧
      (cycles_today_read m today).2.cycles_today_date = some today) ∧
    (m.cycles_today_date = some today →
      cycles_today_read m today = (m.cycles_today, m)) ∧
    (m.state = AState.pending_completed → m.cycles_today_date ≠ some today →
      (finish_timer_callback m now today e).1.cycles_today = 1) := by
  refine ⟨?_, ?_, ?_⟩
  · intro hd
    simp [cycles_today_read, hd]
  · intro hd
    simp [cycles_today_read, hd]
  · intro hst hd
    rw [finish_confirm_eq m now today e hst]
    simp [rolledCount, hd]

/-- Witness for C8 on a monitor whose stored date is day 6, read and
completed on day 7. -/
theorem cycles_today_lazy_rollover_witness :
    sample_pending_completed.cycles_today_date ≠ some 7 ∧
    (cycles_today_read sample_pending_completed 7).1 = 0 ∧
    (finish_timer_callback sample_pending_completed 400 7 none).1.cycles_today = 1 :=
  ⟨by decide,
   ((cycles_today_lazy_rollover sample_pending_completed 7 400 none).1
     (by decide)).1,
   (cycles_today_lazy_rollover sample_pending_completed 7 400 none).2.2 rfl
     (by decide)⟩

/-- C9: the externally reported state collapses pending_running to
standby and pending_completed to running and is the identity elsewhere;
and in every monitor reachable from creation or restore through any
sequence of power updates, timer expiries, parameter changes and
shutdown, the start timer is armed only in pending_running and the
finish timer only in pending_completed, so the two confirmation timers
are never both armed. -/
theorem external_map_and_timer_exclusion :
    (external_state AState.pending_running = AState.standby ∧
     external_state AState.pending_completed = AState.running ∧
     external_state AState.off = AState.off ∧
     external_state AState.standby = AState.standby ∧
     external_state AState.running = AState.running ∧
     external_state AState.completed = AState.completed) ∧
    (∀ (name : String) (energy : Bool) (m : Monitor),
      Reachable name energy m →
      (m.start_timer ≠ none → m.state = AState.pending_running) ∧
      (m.finish_timer ≠ none → m.state = AState.pending_completed) ∧
      ¬(m.start_timer ≠ none ∧ m.finish_timer ≠ none)) := by
  refine ⟨⟨rfl, rfl, rfl, rfl, rfl, rfl⟩, ?_⟩
  intro name energy m h
  have hi := reachable_timerInv name energy m h
  exact ⟨hi.1, hi.2, timerInv_not_both m hi⟩

/-- Witness for C9 at a reachable monitor whose start timer is armed
after a high power update followed by the debounce expiry. -/
theorem external_map_and_timer_exclusion_witness :
    Reachable sample_name false sample_armed ∧
    ((sample_armed.start_timer ≠ none →
        sample_armed.state = AState.pending_running) ∧
     (sample_armed.finish_timer ≠ none →
        sample_armed.state = AState.pending_completed) ∧
     ¬(sample_armed.start_timer ≠ none ∧ sample_armed.finish_timer ≠ none)) :=
  ⟨Reachable.debounce _ 20
     (Reachable.power _ (SensorReading.value 100) 0 Reachable.init),
   external_map_and_timer_exclusion.2 sample_name false sample_armed
     (Reachable.debounce _ 20
       (Reachable.power _ (SensorReading.value 100) 0 Reachable.init))⟩

/-- C10: when a baseline exists, the energy source is configured and
the completion reading is below the baseline, the completion handler
stores exactly the rounded difference, a nonpositive value: nothing
clamps the delta to zero or discards it. -/
theorem negative_energy_delta_preserved (m : Monitor) (now : ℚ) (today : Nat)
    (b e : ℚ) (hst : m.state = AState.pending_completed)
    (hb : m.energy_at_start = some b) (hcfg : m.energy_entity = true)
    (hlt : e < b) :
    (finish_timer_callback m now today (some e)).1.cycle_energy =
      some (round3 (e - b)) ∧
    round3 (e - b) ≤ 0 := by
  constructor
  · rw [finish_confirm_eq m now today (some e) hst]
    simp [newCycleEnergy, read_energy_value, hb, hcfg]
  · unfold round3
    have h3 : round ((e - b) * 1000) ≤ 0 := by
      rw [round_eq]
      have hhalf : (e - b) * 1000 + 1 / 2 ≤ 1 / 2 := by nlinarith
      calc ⌊(e - b) * 1000 + 1 / 2⌋ ≤ ⌊(1 : ℚ) / 2⌋ := Int.floor_le_floor hhalf
        _ = 0 := by norm_num [Int.floor_eq_zero_iff]
    have h4 : ((round ((e - b) * 1000) : ℤ) : ℚ) ≤ 0 := by exact_mod_cast h3
    exact div_nonpos_iff.mpr (Or.inr ⟨h4, by norm_num⟩)

/-- Witness for C10: completing with reading one half against baseline
one stores minus one half. -/
theorem negative_energy_delta_preserved_witness :
    sample_pending_completed.state = AState.pending_completed ∧
    sample_pending_completed.energy_at_start = some 1 ∧
    sample_pending_completed.energy_entity = true ∧
    ((1 : ℚ) / 2 < 1) ∧
    (finish_timer_callback sample_pending_completed 400 7
      (some (1 / 2))).1.cycle_energy = some (round3 (1 / 2 - 1)) ∧
    round3 (1 / 2 - 1) ≤ 0 :=
  ⟨rfl, rfl, rfl, by norm_num,
   (negative_energy_delta_preserved sample_pending_completed 400 7 1 (1 / 2)
     rfl rfl rfl (by norm_num)).1,
   (negative_energy_delta_preserved sample_pending_completed 400 7 1 (1 / 2)
     rfl rfl rfl (by norm_num)).2⟩
